import Mathlib

/-!
# Verification of the Mudan remote-control agent

Shallow embedding of `mqtt_service.py` (command dispatch queue, command
router, busy gate, status publisher, process-shutdown escalation, output
relay) and `services/git_service.py` (`GitService.update`).

Conventions of the embedding:
* Python dictionaries returned by `GitService.update` become association
  lists `List (String × PyVal)`, written field by field exactly as the
  source writes its dict literals.
* Side effects (status publishes, handler invocations, busy-flag writes,
  signals sent to processes) become explicit events in a trace list, in
  the order the source performs them.
* Exceptions become explicit outcomes: a handler that may raise is
  parameterised by an `Option String` (the message of the raised
  exception, `none` = returns normally); an attribute lookup on a name
  the class never defines becomes an `AttributeError` outcome.
-/

namespace Mudan

/-- Python values appearing in `GitService.update`'s result dict. -/
inductive PyVal where
  | pb (b : Bool)
  | ps (s : String)
  deriving DecidableEq, Repr

/-- The heavyweight commands: `MqttService.need_time_command`
(mqtt_service.py line 29). -/
def need_time_command : List String :=
  ["start_main", "stop_main", "git_update", "checkUpdated"]

/-- Method names defined on class `MqttService` (mqtt_service.py).
Attribute lookup of any other name on an instance raises
`AttributeError`. -/
def mqttServiceMethods : List String :=
  ["__init__", "_get_mqtt_params", "Bulid_client", "on_connect",
   "on_message", "init_command_queue", "start_command_worker",
   "command_worker", "process_command", "send_status", "stream_output",
   "kill_process_tree", "graceful_shutdown_unix", "start_main",
   "stop_main", "cleanup"]

/-- Instance attribute names ever assigned on a `MqttService` object
(`__init__`, `_get_mqtt_params` via `setattr` of the mqtt-section keys,
`init_command_queue`, `start_command_worker`, `start_main`,
`stop_main`).  Reading any other attribute raises `AttributeError`. -/
def mqttServiceInstanceAttrs : List String :=
  ["settings", "mqtt", "broker", "port", "topic", "status_topic",
   "output_topic", "control_topic", "is_running", "client", "process",
   "current_app", "command_lock", "command_queue",
   "command_worker_thread", "is_busy", "shutdown_event",
   "max_command_timeout", "output_thread"]

/-! ## GitService.update (git_service.py lines 116-209)

`get_current_commit` and `pull` wrap every failure internally
(`get_current_commit` returns `None` on any error, `pull` returns a
`(success, stdout, stderr)` triple), so `update` is parameterised by
their results: `cur` is the first `get_current_commit()`, `pullRes` the
`pull()` triple, `newC` the second `get_current_commit()`. -/

/-- The seven keys of every dict `GitService.update` returns, in source
order. -/
def gitResultKeys : List String :=
  ["success", "has_update", "old_commit", "new_commit", "pull_output",
   "pull_error", "error"]

/-- Embedding of `GitService.update`, each return site transcribed as
the literal dict the source builds. -/
def git_update (cur : Option String) (pullRes : Bool × String × String)
    (newC : Option String) : List (String × PyVal) :=
  match cur with
  | none =>
      [("success", .pb false), ("has_update", .pb false),
       ("old_commit", .ps ""), ("new_commit", .ps ""),
       ("pull_output", .ps ""), ("pull_error", .ps ""),
       ("error", .ps "Failed to get current commit")]
  | some curCommit =>
      let pullSuccess := pullRes.1
      let pullOutput := pullRes.2.1
      let pullError := pullRes.2.2
      if !pullSuccess then
        [("success", .pb false), ("has_update", .pb false),
         ("old_commit", .ps curCommit), ("new_commit", .ps curCommit),
         ("pull_output", .ps pullOutput), ("pull_error", .ps pullError),
         ("error", .ps ("Git pull failed: " ++ pullError))]
      else
        match newC with
        | none =>
            [("success", .pb false), ("has_update", .pb false),
             ("old_commit", .ps curCommit), ("new_commit", .ps curCommit),
             ("pull_output", .ps pullOutput), ("pull_error", .ps pullError),
             ("error", .ps "Failed to get new commit after pull")]
        | some newCommit =>
            [("success", .pb true),
             ("has_update", .pb (curCommit != newCommit)),
             ("old_commit", .ps curCommit), ("new_commit", .ps newCommit),
             ("pull_output", .ps pullOutput), ("pull_error", .ps pullError),
             ("error", .ps "")]

/-! ## The command router: MqttService.process_command (lines 138-175) -/

/-- Observable effects of one `process_command` invocation, in source
order. -/
inductive Event where
  /-- an argument passed to `self.send_status` -/
  | status (s : String)
  /-- the busy-gate rejection branch (lines 143-145) was taken -/
  | rejectedBusy (c : String)
  /-- the assignment `self.is_busy = True` (line 151) -/
  | busySet
  /-- the assignment `self.is_busy = False` in the `finally` block
  (line 174) -/
  | busyClear
  /-- the dispatch point (line 154 onward) was reached for command `c` -/
  | dispatch (c : String)
  /-- the call `GitService().update()` ran and returned result `r`
  (line 164); the source discards `r` -/
  | gitUpdate (r : List (String × PyVal))
  /-- the unknown-command warning branch (line 166) -/
  | unknownWarn (c : String)
  deriving DecidableEq, Repr

/-- Embedding of `MqttService.process_command`.  `busy0` is
`self.is_busy` at entry;
`gitRaises` is `some msg` when `GitService()`/`update()` raises with
message `msg` (the only statements of the `try` block that can raise);
`gitResult` is the value `update()` returns when it does not raise.
Returns the final `self.is_busy` and the event trace. -/
def process_command (busy0 : Bool) (command : String)
    (gitRaises : Option String) (gitResult : List (String × PyVal)) :
    Bool × List Event :=
  if busy0 && need_time_command.contains command then
    (busy0,
     [.rejectedBusy command,
      .status ("busy:Cannot process " ++ command ++
        " - system is currently busy")])
  else
    -- try / with self.command_lock
    let (busy1, evs1) :=
      if need_time_command.contains command then
        (true, [Event.busySet,
                Event.status ("busy:Processing " ++ command)])
      else (busy0, ([] : List Event))
    let evs2 := [Event.dispatch command]
    let (evs3, excMsg) :=
      if command == "start_main" then
        (([] : List Event), (none : Option String))      -- pass
      else if command == "stop_main" then
        (([] : List Event), (none : Option String))      -- pass
      else if command == "git_update" || command == "checkUpdated" then
        match gitRaises with
        | none => ([Event.gitUpdate gitResult], none)
        | some m => (([] : List Event), some m)
      else
        ([Event.unknownWarn command], (none : Option String))
    -- except Exception as e
    let evs4 :=
      match excMsg with
      | none => ([] : List Event)
      | some m =>
          [Event.status ("error:Failed to process " ++ command ++
            " - " ++ m)]
    -- finally
    let (busyF, evsF) :=
      if busy1 then
        (false,
         [Event.busyClear,
          Event.status ("Command '" ++ command ++
            "' completed, system no longer busy")])
      else (busy1, ([] : List Event))
    (busyF, evs1 ++ evs2 ++ evs3 ++ evs4 ++ evsF)

/-- The status strings published in a trace, in order. -/
def statuses (evs : List Event) : List String :=
  evs.filterMap fun e =>
    match e with
    | .status s => some s
    | _ => none

example :
    process_command false "git_update" none
        (git_update (some "a") (true, "", "") (some "a")) =
      (false,
       [.busySet, .status "busy:Processing git_update",
        .dispatch "git_update",
        .gitUpdate (git_update (some "a") (true, "", "") (some "a")),
        .busyClear,
        .status "Command 'git_update' completed, system no longer busy"]) := by
  decide

/-! ## Serial execution by the single worker thread
(`MqttService.command_worker`, lines 124-136): commands are processed
one after another; the busy flag surviving from one invocation is the
entry flag of the next. -/

/-- Run a list of commands serially, as the single worker thread does.
Each element is `(command, gitRaises, gitResult)`. -/
def runSerial :
    List (String × Option String × List (String × PyVal)) → Bool →
      Bool × List Event
  | [], b => (b, [])
  | (c, r, g) :: rest, b =>
      let step := process_command b c r g
      let next := runSerial rest step.1
      (next.1, step.2 ++ next.2)

/-- Does an event witness the busy-gate rejection branch? -/
def isRejection : Event → Bool
  | .rejectedBusy _ => true
  | _ => false

/-- Extract the command name of a dispatch event. -/
def dispatchName : Event → Option String
  | .dispatch c => some c
  | _ => none

/-! ## The dispatch queue: MqttService.on_message (lines 90-109) and
the FIFO queue drained by `command_worker`.

`on_message` checks `command_queue.qsize() >= 10` and, on that branch,
calls `self._send_status(...)` — but class `MqttService` defines no
attribute `_send_status` (the method is `send_status`), so the lookup
raises `AttributeError` and no notice is published.  Below the
threshold the command is `put` on the queue (capacity 50, so with at
most 10 entries the bounded put always succeeds). -/

/-- Outcome of `MqttService.on_message` for one inbound message. -/
inductive EnqueueOutcome where
  /-- the command was put on the queue -/
  | enqueued
  /-- the rejection branch published its notice and dropped the command -/
  | rejectedNotice (s : String)
  /-- the rejection branch raised `AttributeError` on the given
  attribute name (command dropped, no notice published) -/
  | raisedAttrError (n : String)
  deriving DecidableEq, Repr

/-- Embedding of `MqttService.on_message`, abstracted over the current
queue size. -/
def on_message (qsize : Nat) : EnqueueOutcome :=
  if 10 ≤ qsize then
    if mqttServiceMethods.contains "_send_status" then
      .rejectedNotice "error:Command queue full - try again later"
    else
      .raisedAttrError "_send_status"
  else
    .enqueued

/-- State of the bounded FIFO command queue together with the history
needed to state the ordering property: `queue` is the current content,
`accepted` every command successfully enqueued (in order), `executed`
every command the worker has dequeued and run (in order). -/
structure QState where
  queue : List Nat
  accepted : List Nat
  executed : List Nat
  deriving DecidableEq, Repr

/-- Operations on the dispatch queue: an inbound message carrying the
tagged command `c` (`on_message`), or the worker dequeuing one command
(`command_worker`). -/
inductive QOp where
  | enq (c : Nat)
  | deq
  deriving DecidableEq, Repr

/-- One step of the queue system.  Enqueue applies `on_message`'s
admission check (reject when the queue holds 10 or more); dequeue
takes from the front, as `Queue.get` does. -/
def qstep (s : QState) : QOp → QState
  | .enq c =>
      if 10 ≤ s.queue.length then s
      else { s with queue := s.queue ++ [c], accepted := s.accepted ++ [c] }
  | .deq =>
      match s.queue with
      | [] => s
      | c :: rest =>
          { s with queue := rest, executed := s.executed ++ [c] }

/-- The empty initial queue system. -/
def qinit : QState := ⟨[], [], []⟩

/-- Run a sequence of queue operations from the initial state. -/
def runQ (ops : List QOp) : QState := ops.foldl qstep qinit

/-! ## The output relay: MqttService.stream_output (lines 184-194)

The loop condition is
`while self.is_running and self._process and self._process.poll() is None`,
but no attribute `_process` is ever assigned (the process handle lives
in `self.process`), so the first evaluation of the condition raises
`AttributeError`, outside the `try` that guards the body.  Had the
body run, it would publish `output.strip()` — the line with leading
and trailing whitespace removed — not the raw line. -/

/-- Outcome of the relay loop: the list of lines published on the
output topic, or an `AttributeError` escaping the loop condition. -/
inductive RelayOutcome where
  | published (lines : List String)
  | raisedAttrError (n : String)
  deriving DecidableEq, Repr

/-- Python's `str.strip()`: remove leading and trailing whitespace. -/
def pyStrip (s : String) : String :=
  ⟨((s.data.dropWhile Char.isWhitespace).reverse.dropWhile
      Char.isWhitespace).reverse⟩

/-- What one iteration's body publishes for a raw line read from the
child's stdout (lines 187-190): falsy (empty) lines are skipped,
others are published stripped. -/
def relayBody (raw : String) : List String :=
  if raw = "" then [] else [pyStrip raw]

/-- Embedding of `MqttService.stream_output`, abstracted over
`is_running` and the
raw lines the child's stdout would yield. -/
def stream_output (is_running : Bool) (rawLines : List String) :
    RelayOutcome :=
  if is_running then
    if mqttServiceInstanceAttrs.contains "_process" then
      .published (rawLines.flatMap relayBody)
    else
      .raisedAttrError "_process"
  else
    .published []

/-! ## Shutdown escalation: MqttService.graceful_shutdown_unix
(lines 224-256) and MqttService.kill_process_tree (lines 199-222).

Parameters: `gone` — the target process is already absent at entry
(then `os.getpgid` raises `ProcessLookupError`, which is not
`psutil.NoSuchProcess`, so the generic `except Exception` handler runs
and calls the nonexistent method `self._kill_process_tree`, raising
`AttributeError`); `si` — the child exits within the 8-unit SIGINT
wait; `st` — it exits within the 5-unit SIGTERM wait; `children` /
`survivors` — the pids `psutil` enumerates as descendants and the
subset still alive after the 3-unit grace wait. -/

/-- Signals sent to the process group. -/
inductive Sig where
  | sigint
  | sigterm
  deriving DecidableEq, Repr

/-- Process-management actions, in the order the source performs
them.  `killParent` (a `SIGKILL` of the original process) is in the
vocabulary because the spec promises it; the source never emits it. -/
inductive Act where
  /-- the call `os.killpg(pgid, sig)` -/
  | killpg (s : Sig)
  /-- the call `self.process.wait(timeout=t)` or
  `parent.wait(timeout=t)` -/
  | waitParent (t : Nat)
  /-- the call `child.terminate()` on descendant pid `p` -/
  | termChild (p : Nat)
  /-- the call `psutil.wait_procs(children, timeout=t)` -/
  | waitChildren (t : Nat)
  /-- the call `p.kill()` on a surviving descendant -/
  | killChild (p : Nat)
  /-- the call `parent.terminate()` on the original process -/
  | termParent
  /-- a `kill` of the original process (never produced by the source) -/
  | killParent
  deriving DecidableEq, Repr

/-- Embedding of `MqttService.kill_process_tree`: terminate every
descendant, wait
up to 3 units, kill survivors, then terminate the original process and
wait up to 3 units.  (`psutil.NoSuchProcess` at any of these calls is
caught and skipped, so absence counts as success here.) -/
def kill_process_tree (children survivors : List Nat) : List Act :=
  (children.map Act.termChild) ++ [Act.waitChildren 3] ++
    (survivors.map Act.killChild) ++ [Act.termParent, Act.waitParent 3]

/-- Embedding of `MqttService.graceful_shutdown_unix`: the actions
performed and
the exception escaping the method, if any. -/
def graceful_shutdown_unix (gone si st : Bool)
    (children survivors : List Nat) : List Act × Option String :=
  if gone then
    -- os.getpgid raises ProcessLookupError → except Exception →
    -- self._kill_process_tree does not exist
    ([], some "AttributeError: _kill_process_tree")
  else
    ([Act.killpg .sigint, Act.waitParent 8] ++
      (if si then [] else
        [Act.killpg .sigterm, Act.waitParent 5] ++
          (if st then [] else kill_process_tree children survivors)),
     none)

/-! ## Status-string convention (MqttService.send_status call sites) -/

/-- Bool-level string-prefix test over the underlying character
data. -/
def strStarts (p s : String) : Bool := p.data.isPrefixOf s.data

/-- The `category:detail` convention of §4.4: `busy:...`, `error:...`,
`running:<name>`, or exactly `stopped`. -/
def followsConvention (s : String) : Bool :=
  strStarts "busy:" s || strStarts "error:" s ||
    strStarts "running:" s || s == "stopped"

/-- A heavyweight completion notice as published by the `finally`
block (line 175). -/
def isCompletionNotice (s : String) : Prop :=
  ∃ c, s = "Command '" ++ c ++ "' completed, system no longer busy"

/-- The arguments of the `send_status` / `_send_status` call sites
outside `process_command`: line 99 (`on_message` rejection), line 109
(`on_message` put timeout), line 280 (`start_main` success, with the
active application's name), lines 289 and 305 (`start_main` /
`stop_main` failure, with the exception text), line 302 (`stop_main`
success). -/
def otherStatusStrings (name err : String) : List String :=
  ["error:Command queue full - try again later",
   "error:Failed to queue command - system busy",
   "running:" ++ name,
   "error:" ++ err,
   "stopped"]

/-! ## Helper lemmas -/

/-- A string with non-empty data stays non-empty after appending. -/
theorem strAppend_ne_empty (p r : String) (hp : p.data ≠ []) :
    p ++ r ≠ "" := by
  intro h
  apply hp
  have h2 : (p ++ r).data = ("" : String).data := by rw [h]
  rw [String.data_append] at h2
  have he : ("" : String).data = [] := rfl
  rw [he] at h2
  exact (List.append_eq_nil.mp h2).1

/-- Prefixhood (`strStarts`) survives appending on the right. -/
theorem strStarts_append_right (p q r : String)
    (h : strStarts p q = true) : strStarts p (q ++ r) = true := by
  simp only [strStarts, String.data_append,
    List.isPrefixOf_iff_prefix] at h ⊢
  exact h.trans (List.prefix_append _ _)

/-! ## C10 — GitService.update is total and internally consistent -/

/-- C10: `GitService.update` never raises and every value it returns is a
dict with exactly the keys `success`, `has_update`, `old_commit`,
`new_commit`, `pull_output`, `pull_error`, `error` (in that order);
`has_update` is true only when `success` is true and `old_commit`
differs from `new_commit`; whenever `success` is false, `has_update` is
false and `error` is a non-empty string.  Totality holds because
`git_update` is a total function of the results of its sub-operations
(`get_current_commit` and `pull` catch all their own exceptions). -/
theorem gitUpdate_total_and_consistent (cur : Option String)
    (pr : Bool × String × String) (nc : Option String) :
    ((git_update cur pr nc).map Prod.fst = gitResultKeys) ∧
    (List.lookup "has_update" (git_update cur pr nc) = some (.pb true) →
      List.lookup "success" (git_update cur pr nc) = some (.pb true) ∧
      List.lookup "old_commit" (git_update cur pr nc) ≠
        List.lookup "new_commit" (git_update cur pr nc)) ∧
    (List.lookup "success" (git_update cur pr nc) = some (.pb false) →
      List.lookup "has_update" (git_update cur pr nc) = some (.pb false) ∧
      ∀ e, List.lookup "error" (git_update cur pr nc) = some (.ps e) →
        e ≠ "") := by
  obtain ⟨ok, out, err⟩ := pr
  cases cur with
  | none =>
      refine ⟨by simp [git_update, gitResultKeys], ?_, ?_⟩
      · intro h
        simp [git_update, List.lookup] at h
      · intro _
        refine ⟨by simp [git_update, List.lookup], ?_⟩
        intro e he
        simp [git_update, List.lookup] at he
        subst he
        decide
  | some c =>
      cases ok with
      | false =>
          refine ⟨by simp [git_update, gitResultKeys], ?_, ?_⟩
          · intro h
            simp [git_update, List.lookup] at h
          · intro _
            refine ⟨by simp [git_update, List.lookup], ?_⟩
            intro e he
            simp [git_update, List.lookup] at he
            subst he
            exact strAppend_ne_empty "Git pull failed: " err (by decide)
      | true =>
          cases nc with
          | none =>
              refine ⟨by simp [git_update, gitResultKeys], ?_, ?_⟩
              · intro h
                simp [git_update, List.lookup] at h
              · intro _
                refine ⟨by simp [git_update, List.lookup], ?_⟩
                intro e he
                simp [git_update, List.lookup] at he
                subst he
                decide
          | some n =>
              refine ⟨by simp [git_update, gitResultKeys], ?_, ?_⟩
              · intro h
                simp [git_update, List.lookup] at h
                refine ⟨by simp [git_update, List.lookup], ?_⟩
                simp [git_update, List.lookup]
                exact h
              · intro h
                simp [git_update, List.lookup] at h

/-- Witness for C10 at a concrete input: a successful pull that moved
the commit yields `success = true` and distinct commits. -/
theorem gitUpdate_total_and_consistent_witness :
    List.lookup "success" (git_update (some "a") (true, "", "") (some "b")) =
      some (.pb true) ∧
    List.lookup "old_commit"
        (git_update (some "a") (true, "", "") (some "b")) ≠
      List.lookup "new_commit"
        (git_update (some "a") (true, "", "") (some "b")) :=
  (gitUpdate_total_and_consistent (some "a") (true, "", "")
    (some "b")).2.1 (by decide)

/-! ## C1 — heavyweight commands always clear Busy exactly once -/

/-- C1: for every heavyweight command the worker begins executing
(entry `is_busy = false`, so the busy gate does not fire), whether the
handler returns normally (`gitRaises = none`) or raises
(`gitRaises = some m`), `is_busy` is false again when the invocation
ends, the clear happens exactly once, and the invocation's last two
effects are that single clear followed by a completion notice naming
the command. -/
theorem heavyweight_clears_busy_once (c : String) (r : Option String)
    (g : List (String × PyVal))
    (hc : need_time_command.contains c = true) :
    (process_command false c r g).1 = false ∧
    (process_command false c r g).2.count Event.busyClear = 1 ∧
    (process_command false c r g).2.drop
        ((process_command false c r g).2.length - 2) =
      [Event.busyClear,
       Event.status ("Command '" ++ c ++
         "' completed, system no longer busy")] := by
  have hc' : c = "start_main" ∨ c = "stop_main" ∨ c = "git_update" ∨
      c = "checkUpdated" := by
    simpa [need_time_command] using hc
  rcases hc' with rfl | rfl | rfl | rfl <;> cases r <;>
    simp [process_command, need_time_command, List.count_cons]

/-- Witness for C1: the `git_update` command, handler raising with
message `"boom"`. -/
theorem heavyweight_clears_busy_once_witness :
    (process_command false "git_update" (some "boom") []).1 = false ∧
    (process_command false "git_update" (some "boom") []).2.count
        Event.busyClear = 1 ∧
    (process_command false "git_update" (some "boom") []).2.drop
        ((process_command false "git_update" (some "boom") []).2.length - 2) =
      [Event.busyClear,
       Event.status ("Command '" ++ "git_update" ++
         "' completed, system no longer busy")] :=
  heavyweight_clears_busy_once "git_update" (some "boom") [] (by decide)

/-! ## C4 — the busy gate rejects heavyweight commands only -/

/-- C4: when `is_busy` is set at entry, a heavyweight command is
rejected with a busy status notice and nothing else happens (in
particular its handler never runs: the whole trace is the rejection),
while a non-heavyweight command still reaches the dispatch point. -/
theorem busy_gate_heavyweight_only (c : String) (r : Option String)
    (g : List (String × PyVal)) :
    (need_time_command.contains c = true →
      process_command true c r g =
        (true,
         [Event.rejectedBusy c,
          Event.status ("busy:Cannot process " ++ c ++
            " - system is currently busy")])) ∧
    (need_time_command.contains c = false →
      Event.dispatch c ∈ (process_command true c r g).2) := by
  constructor
  · intro h
    have hm : c ∈ need_time_command := by simpa using h
    simp [process_command, hm]
  · intro h
    have hm : c ∉ need_time_command := by simpa using h
    simp [process_command, hm]

/-- Witness for C4: `start_main` is busy-rejected, an unknown command
`"other"` is still dispatched. -/
theorem busy_gate_heavyweight_only_witness :
    process_command true "start_main" none [] =
      (true,
       [Event.rejectedBusy "start_main",
        Event.status ("busy:Cannot process " ++ "start_main" ++
          " - system is currently busy")]) ∧
    Event.dispatch "other" ∈ (process_command true "other" none []).2 :=
  ⟨(busy_gate_heavyweight_only "start_main" none []).1 (by decide),
   (busy_gate_heavyweight_only "other" none []).2 (by decide)⟩

/-! ## C9 — serially, the busy-rejection branch is unreachable -/

/-- From an idle entry state, one `process_command` invocation ends
idle, never takes the rejection branch, and dispatches exactly its own
command. -/
theorem process_command_from_idle (c : String) (r : Option String)
    (g : List (String × PyVal)) :
    (process_command false c r g).1 = false ∧
    (process_command false c r g).2.filter isRejection = [] ∧
    (process_command false c r g).2.filterMap dispatchName = [c] := by
  by_cases hc : need_time_command.contains c = true
  · have hc' : c = "start_main" ∨ c = "stop_main" ∨ c = "git_update" ∨
        c = "checkUpdated" := by
      simpa [need_time_command] using hc
    rcases hc' with rfl | rfl | rfl | rfl <;> cases r <;>
      simp [process_command, need_time_command, isRejection, dispatchName]
  · have hmem : ¬(c = "start_main" ∨ c = "stop_main" ∨ c = "git_update" ∨
        c = "checkUpdated") := by
      intro hor
      apply hc
      rcases hor with rfl | rfl | rfl | rfl <;> decide
    have hm : c ∉ need_time_command := by
      simpa [need_time_command] using hmem
    push_neg at hmem
    obtain ⟨h1, h2, h3, h4⟩ := hmem
    simp [process_command, hm, h1, h2, h3, h4, isRejection, dispatchName]

/-- C9: under the source's threading model — `process_command` invoked
only serially by the single worker thread, `is_busy` initialised to
`False` and mutated nowhere else — every invocation starts idle, so no
command of any serially executed sequence is ever busy-rejected, and
every command (heavyweight or not) reaches the dispatch point, in
order. -/
theorem serial_worker_never_busy_rejects
    (cmds : List (String × Option String × List (String × PyVal))) :
    (runSerial cmds false).1 = false ∧
    (runSerial cmds false).2.filter isRejection = [] ∧
    (runSerial cmds false).2.filterMap dispatchName =
      cmds.map (fun x => x.1) := by
  induction cmds with
  | nil => simp [runSerial]
  | cons hd tl ih =>
      obtain ⟨c, r, g⟩ := hd
      obtain ⟨k1, k2, k3⟩ := process_command_from_idle c r g
      refine ⟨?_, ?_, ?_⟩ <;>
        simp [runSerial, k1, k2, k3, List.filter_append,
          List.filterMap_append, ih.1, ih.2.1, ih.2.2]

/-! ## C2 — FIFO: execution order equals successful-enqueue order -/

/-- The queue-system invariant: the commands already executed followed
by the commands still queued are exactly the successfully accepted
commands, in order.  Holds of every reachable state. -/
theorem qstep_invariant (ops : List QOp) (s : QState)
    (h : s.executed ++ s.queue = s.accepted) :
    (ops.foldl qstep s).executed ++ (ops.foldl qstep s).queue =
      (ops.foldl qstep s).accepted := by
  induction ops generalizing s with
  | nil => simpa using h
  | cons op rest ih =>
      simp only [List.foldl_cons]
      apply ih
      cases op with
      | enq c =>
          simp only [qstep]
          split
          · exact h
          · simp [← h, List.append_assoc]
      | deq =>
          cases hq : s.queue with
          | nil => simpa [qstep, hq] using h
          | cons x xs =>
              simp only [qstep, hq]
              rw [← h, hq]
              simp

/-- C2: for every interleaving of enqueues (with `on_message`'s
admission check) and worker dequeues, the executed commands followed by
the still-queued commands equal the accepted commands in order; in
particular the execution order is a prefix of the successful-enqueue
order — FIFO, no reordering, no priority. -/
theorem fifo_execution_order (ops : List QOp) :
    (runQ ops).executed ++ (runQ ops).queue = (runQ ops).accepted ∧
    List.IsPrefix (runQ ops).executed (runQ ops).accepted := by
  have h : (runQ ops).executed ++ (runQ ops).queue = (runQ ops).accepted :=
    qstep_invariant ops qinit rfl
  exact ⟨h, ⟨(runQ ops).queue, h⟩⟩

/-! ## C3 — the queue-full rejection path raises instead of notifying -/

/-- C3 (code bug): a message arriving while the queue holds 10 entries
is indeed dropped and never executed, but no "queue nearly full" notice
is published: the rejection branch calls `self._send_status`, and class
`MqttService` defines `send_status`, not `_send_status`, so the branch
raises `AttributeError`.  Below the threshold the command is enqueued. -/
theorem queue_full_rejection_raises :
    on_message 10 = .raisedAttrError "_send_status" ∧
    on_message 9 = .enqueued ∧
    mqttServiceMethods.contains "send_status" = true ∧
    mqttServiceMethods.contains "_send_status" = false := by
  decide

/-! ## C6 — the output relay crashes on a nonexistent attribute -/

/-- C6 (code bug): with the child running, the relay loop's condition
reads `self._process`, an attribute never assigned (the process handle
is `self.process`), so the relay raises `AttributeError` before reading
a single line; and even the loop body would publish `output.strip()`,
not the line verbatim. -/
theorem output_relay_crashes :
    stream_output true ["hello"] = .raisedAttrError "_process" ∧
    mqttServiceInstanceAttrs.contains "process" = true ∧
    mqttServiceInstanceAttrs.contains "_process" = false ∧
    relayBody "  line  " = ["line"] ∧
    pyStrip "  line  " ≠ "  line  " := by
  decide

/-! ## C7 — the update result is discarded, not reported -/

/-- An update run that found nothing new (commit unchanged). -/
def resultNoUpdate : List (String × PyVal) :=
  git_update (some "aaaa") (true, "Already up to date.", "") (some "aaaa")

/-- An update run that fetched new content (commit moved). -/
def resultWithUpdate : List (String × PyVal) :=
  git_update (some "aaaa") (true, "Updating aaaa..bbbb", "") (some "bbbb")

/-- C7 counterexample: `process_command` publishes exactly the same
statuses for a `has_update = false` collaborator result as for a
`has_update = true` one — there is no "no update" status, distinct or
otherwise, because line 164 discards `git_service.update()`'s return
value. -/
theorem update_statuses_not_distinct :
    List.lookup "has_update" resultNoUpdate = some (.pb false) ∧
    List.lookup "has_update" resultWithUpdate = some (.pb true) ∧
    statuses (process_command false "git_update" none resultNoUpdate).2 =
      statuses (process_command false "git_update" none resultWithUpdate).2 := by
  decide

/-- C7 amended: for an update command the router does delegate to the
Update Collaborator (the `gitUpdate` event carries the structured
result), but the result is discarded: the published statuses are the
fixed busy-processing and completion notices, identical for every
collaborator result. -/
theorem update_result_discarded (c : String)
    (g g' : List (String × PyVal))
    (hc : c = "git_update" ∨ c = "checkUpdated") :
    (process_command false c none g).2 =
      [Event.busySet, Event.status ("busy:Processing " ++ c),
       Event.dispatch c, Event.gitUpdate g, Event.busyClear,
       Event.status ("Command '" ++ c ++
         "' completed, system no longer busy")] ∧
    statuses (process_command false c none g).2 =
      statuses (process_command false c none g').2 := by
  rcases hc with rfl | rfl <;>
    simp [process_command, need_time_command, statuses]

/-- Witness for C7 amended: `git_update` with the no-update result. -/
theorem update_result_discarded_witness :
    (process_command false "git_update" none resultNoUpdate).2 =
      [Event.busySet, Event.status ("busy:Processing " ++ "git_update"),
       Event.dispatch "git_update", Event.gitUpdate resultNoUpdate,
       Event.busyClear,
       Event.status ("Command '" ++ "git_update" ++
         "' completed, system no longer busy")] ∧
    statuses (process_command false "git_update" none resultNoUpdate).2 =
      statuses (process_command false "git_update" none resultWithUpdate).2 :=
  update_result_discarded "git_update" resultNoUpdate resultWithUpdate
    (Or.inl rfl)

/-! ## C8 — the status-string convention and the one string outside it -/

/-- C8 counterexample: the completion notice published by the `finally`
block is passed to `send_status` (it is the last status of every
heavyweight run), yet matches none of the `busy:` / `error:` /
`running:` / `stopped` forms. -/
theorem completion_notice_breaks_convention :
    Event.status "Command 'git_update' completed, system no longer busy" ∈
      (process_command false "git_update" none []).2 ∧
    followsConvention
        "Command 'git_update' completed, system no longer busy" = false := by
  decide

/-- Every status string a `process_command` trace can contain is one of
the four source-level formats. -/
theorem process_command_status_shapes (b : Bool) (c : String)
    (r : Option String) (g : List (String × PyVal)) (s : String)
    (hs : s ∈ statuses (process_command b c r g).2) :
    s = "busy:Cannot process " ++ c ++ " - system is currently busy" ∨
    s = "busy:Processing " ++ c ∨
    (∃ m, s = "error:Failed to process " ++ c ++ " - " ++ m) ∨
    s = "Command '" ++ c ++ "' completed, system no longer busy" := by
  by_cases hm : c ∈ need_time_command
  · have hc' : c = "start_main" ∨ c = "stop_main" ∨ c = "git_update" ∨
        c = "checkUpdated" := by
      simpa [need_time_command] using hm
    rcases hc' with rfl | rfl | rfl | rfl <;> cases b <;> cases r <;>
      (simp_all [process_command, need_time_command, statuses]) <;> aesop
  · have hmem : ¬(c = "start_main" ∨ c = "stop_main" ∨ c = "git_update" ∨
        c = "checkUpdated") := by
      simpa [need_time_command] using hm
    push_neg at hmem
    obtain ⟨h1, h2, h3, h4⟩ := hmem
    cases b <;>
      simp_all [process_command, need_time_command, statuses,
        h1, h2, h3, h4]

/-- C8 amended: every status string ever passed to the Status
Publisher follows the `category:detail` convention (`busy:...`,
`error:...`, `running:<name>`, `stopped`) with a single exception: the
heavyweight completion notice
`Command '<name>' completed, system no longer busy`. -/
theorem status_strings_convention (b : Bool) (c : String)
    (r : Option String) (g : List (String × PyVal))
    (name err s : String)
    (hs : s ∈ statuses (process_command b c r g).2 ∨
          s ∈ otherStatusStrings name err) :
    followsConvention s = true ∨ isCompletionNotice s := by
  rcases hs with hs | hs
  · rcases process_command_status_shapes b c r g s hs with
      rfl | rfl | ⟨m, rfl⟩ | rfl
    · left
      have h := strStarts_append_right "busy:"
        ("busy:Cannot process " ++ c) " - system is currently busy"
        (strStarts_append_right "busy:" "busy:Cannot process " c
          (by decide))
      simp [followsConvention, h]
    · left
      have h := strStarts_append_right "busy:" "busy:Processing " c
        (by decide)
      simp [followsConvention, h]
    · left
      have h := strStarts_append_right "error:"
        ("error:Failed to process " ++ c ++ " - ") m
        (strStarts_append_right "error:"
          ("error:Failed to process " ++ c) " - "
          (strStarts_append_right "error:" "error:Failed to process " c
            (by decide)))
      simp [followsConvention, h]
    · right
      exact ⟨c, rfl⟩
  · simp only [otherStatusStrings, List.mem_cons, List.not_mem_nil,
      or_false] at hs
    rcases hs with rfl | rfl | rfl | rfl | rfl
    · left; decide
    · left; decide
    · left
      have h := strStarts_append_right "running:" "running:" name
        (by decide)
      simp [followsConvention, h]
    · left
      have h := strStarts_append_right "error:" "error:" err (by decide)
      simp [followsConvention, h]
    · left; decide

/-- Witness for C8 amended: the `stopped` notice of `stop_main`. -/
theorem status_strings_convention_witness :
    followsConvention "stopped" = true ∨ isCompletionNotice "stopped" :=
  status_strings_convention false "c" none [] "x" "y" "stopped"
    (Or.inr (by decide))

/-! ## C5 — shutdown escalation order -/

/-- Equation for `kill_process_tree` with its last two actions split
off. -/
theorem kill_process_tree_eq (ch sv : List Nat) :
    kill_process_tree ch sv =
      (ch.map Act.termChild ++ [Act.waitChildren 3] ++
        sv.map Act.killChild) ++ [Act.termParent, Act.waitParent 3] := by
  simp [kill_process_tree, List.append_assoc]

/-- Dropping a left part of an append leaves the right part. -/
theorem drop_length_append (A B : List Act) :
    (A ++ B).drop A.length = B := by
  induction A with
  | nil => simp
  | cons a A ih => simp [ih]

/-- The tree teardown ends with a terminate signal to the original
process and a bounded wait — not a kill. -/
theorem kill_process_tree_last_two (ch sv : List Nat) :
    (kill_process_tree ch sv).drop
        ((kill_process_tree ch sv).length - 2) =
      [Act.termParent, Act.waitParent 3] := by
  rw [kill_process_tree_eq, List.length_append]
  have h2 : ([Act.termParent, Act.waitParent 3] : List Act).length = 2 :=
    rfl
  rw [h2, Nat.add_sub_cancel]
  exact drop_length_append _ _

/-- No group signal occurs inside the tree teardown. -/
theorem killpg_not_mem_tree (s : Sig) (ch sv : List Nat) :
    Act.killpg s ∉ kill_process_tree ch sv := by
  simp [kill_process_tree, List.mem_append, List.mem_map]

/-- The original process is never force-killed by the tree teardown. -/
theorem killParent_not_mem_tree (ch sv : List Nat) :
    Act.killParent ∉ kill_process_tree ch sv := by
  simp [kill_process_tree, List.mem_append, List.mem_map]

/-- C5 counterexample: a child that ignores both the interrupt and the
terminate signal, with one descendant that also survives the grace
wait: the full escalation runs and the original process is never
force-killed — the final actions on it are `parent.terminate()` and a
3-unit wait. -/
theorem shutdown_never_force_kills_original :
    (graceful_shutdown_unix false false false [7] [7]).1 =
      [Act.killpg .sigint, Act.waitParent 8, Act.killpg .sigterm,
       Act.waitParent 5, Act.termChild 7, Act.waitChildren 3,
       Act.killChild 7, Act.termParent, Act.waitParent 3] ∧
    Act.killParent ∉ (graceful_shutdown_unix false false false [7] [7]).1 := by
  decide

/-- C5 amended: when the target process is present, escalation
proceeds in order — interrupt the group and wait 8 units; on timeout
terminate the group and wait 5 units; on timeout run the tree teardown
(terminate every descendant, wait 3 units, kill survivors) ending with
a terminate signal to the original process and a 3-unit wait — each
group signal sent at most once, no step skipped, and the original
process never force-killed; when the target process is already absent
at entry, the fallback calls the nonexistent `_kill_process_tree` and
the method raises `AttributeError` instead of succeeding. -/
theorem shutdown_escalation_order (gone si st : Bool)
    (ch sv : List Nat) :
    (gone = true →
      graceful_shutdown_unix gone si st ch sv =
        ([], some "AttributeError: _kill_process_tree")) ∧
    (gone = false →
      (graceful_shutdown_unix gone si st ch sv).2 = none ∧
      (graceful_shutdown_unix gone si st ch sv).1.take 2 =
        [Act.killpg .sigint, Act.waitParent 8] ∧
      (graceful_shutdown_unix gone si st ch sv).1.count
          (Act.killpg .sigint) = 1 ∧
      (graceful_shutdown_unix gone si st ch sv).1.count
          (Act.killpg .sigterm) = (if si then 0 else 1) ∧
      (si = false → st = false →
        (graceful_shutdown_unix gone si st ch sv).1 =
          [Act.killpg .sigint, Act.waitParent 8, Act.killpg .sigterm,
           Act.waitParent 5] ++ kill_process_tree ch sv) ∧
      Act.killParent ∉ (graceful_shutdown_unix gone si st ch sv).1 ∧
      (kill_process_tree ch sv).drop
          ((kill_process_tree ch sv).length - 2) =
        [Act.termParent, Act.waitParent 3]) := by
  have hint := killpg_not_mem_tree Sig.sigint ch sv
  have hterm := killpg_not_mem_tree Sig.sigterm ch sv
  have hkp := killParent_not_mem_tree ch sv
  have hcint : (kill_process_tree ch sv).count (Act.killpg .sigint) = 0 :=
    List.count_eq_zero.mpr hint
  have hcterm : (kill_process_tree ch sv).count (Act.killpg .sigterm) = 0 :=
    List.count_eq_zero.mpr hterm
  cases gone <;> cases si <;> cases st <;>
    simp_all [graceful_shutdown_unix, List.count_append,
      List.count_cons, kill_process_tree_last_two]

/-- Witness for C5 amended: both timeouts expire with no descendants;
the trace is the two group signals, their waits, then the tree
teardown. -/
theorem shutdown_escalation_order_witness :
    (graceful_shutdown_unix false false false [] []).1 =
      [Act.killpg .sigint, Act.waitParent 8, Act.killpg .sigterm,
       Act.waitParent 5] ++ kill_process_tree [] [] :=
  ((shutdown_escalation_order false false false [] []).2 rfl).2.2.2.2.1
    rfl rfl

end Mudan
